import Mathlib

/-!
Verification of the witboost OpenMetadata data-catalog plugin.

This file gives a shallow embedding of the plugin's core logic and proves
properties about it:

* the identifier codec (`_get_dp_name_from_id`, `_get_component_name_from_id`
  in `src/services/openmetadata_client_service.py`);
* the catalog gateway methods of `OpenMetadataClientService`, modelled over an
  abstract catalog client (`OpenMetadataAPI`) which records the raw client
  calls issued and can fail any of them with an exception message;
* the reconciliation engine (`ProvisionService.provision` / `unprovision` /
  `validate` in `src/services/provision_service.py`);
* the request unpacking of `src/dependencies.py`;
* the glossary lookup service (`src/services/glossary_terms_service.py`).

Python strings are modelled as Lean `String`.  The Python string operations
used by the source (`str.split`, `str.lower`, the `in` substring test,
`str.join`, `urllib.parse.quote`) are implemented here explicitly over the
character list of the string so that every definition evaluates inside the
kernel.  `str.lower` is modelled for the ASCII range; the identifiers the
plugin manipulates are ASCII.
-/

namespace Witboost

/-- Splits a character list at every occurrence of `sep`, keeping empty
chunks, exactly like Python's `str.split(sep)` for a one-character
separator. -/
def splitOnChar (sep : Char) : List Char → List (List Char)
  | [] => [[]]
  | c :: rest =>
    let r := splitOnChar sep rest
    if c = sep then [] :: r
    else
      match r with
      | [] => [[c]]
      | g :: gs => (c :: g) :: gs

/-- Python `s.split(sep)` for a one-character separator. -/
def pySplit (sep : Char) (s : String) : List String :=
  (splitOnChar sep s.toList).map (fun l => String.mk l)

/-- ASCII lower-casing of one character (Python `str.lower` restricted to
ASCII). -/
def asciiLowerChar (c : Char) : Char :=
  if 'A' ≤ c ∧ c ≤ 'Z' then Char.ofNat (c.toNat + 32) else c

/-- Python `s.lower()` (ASCII range). -/
def pyLower (s : String) : String :=
  String.mk (s.toList.map asciiLowerChar)

/-- Whether `pat` is a prefix of `l` (boolean, character lists). -/
def charPrefixTest : List Char → List Char → Bool
  | [], _ => true
  | _ :: _, [] => false
  | a :: as, b :: bs => a = b && charPrefixTest as bs

/-- Whether `pat` occurs as a contiguous substring of `hay`
(character lists). -/
def charSubTest (pat : List Char) : List Char → Bool
  | [] => charPrefixTest pat []
  | c :: rest => charPrefixTest pat (c :: rest) || charSubTest pat rest

/-- Python `pat in hay` for strings (substring containment). -/
def pyContains (hay pat : String) : Bool :=
  charSubTest pat.toList hay.toList

/-- Python `sep.join(l)`. -/
def pyJoin (sep : String) (l : List String) : String :=
  sep.intercalate l

/-- The text of Python's `IndexError` raised by an out-of-range list index,
as produced by `str(e)`. -/
def indexErrorMessage : String := "list index out of range"

/-- `OpenMetadataClientService._get_dp_name_from_id`: split the urn on `:`
and join segments at indices 3, 4 and 5 with `:`.  `none` models the
`IndexError` raised when the urn has fewer segments than required. -/
def _get_dp_name_from_id (id : String) : Option String :=
  let splitted := pySplit ':' id
  match splitted[3]?, splitted[4]?, splitted[5]? with
  | some a, some b, some c => some (a ++ ":" ++ b ++ ":" ++ c)
  | _, _, _ => none

/-- `OpenMetadataClientService._get_component_name_from_id`: split the urn on
`:` and join segments at indices 3, 4, 5 and 6 with `:`.  `none` models the
`IndexError` raised when the urn has fewer segments than required. -/
def _get_component_name_from_id (id : String) : Option String :=
  let splitted := pySplit ':' id
  match splitted[3]?, splitted[4]?, splitted[5]?, splitted[6]? with
  | some a, some b, some c, some d =>
    some (a ++ ":" ++ b ++ ":" ++ c ++ ":" ++ d)
  | _, _, _, _ => none

/-! ## Descriptor data model

`src/models/data_product_descriptor.py` is not present under `src/`; the
shapes below are modelled from the spec (§3) and from how the source files
under `src/` and the repository's tests construct and consume these values.
Fields that no code under `src/` reads (owner identities, dependsOn,
semanticLinking, the open `specific` map, ...) are omitted: no claim and no
embedded function can observe them. -/

/-- Modelled from the spec: the tag-source enum of
`data_product_descriptor.py` (§3: "a source enum (exactly two recognized
values: CLASSIFICATION and GLOSSARY)"). -/
inductive TagSourceTagLabel
  | CLASSIFICATION
  | GLOSSARY
deriving DecidableEq, Repr

/-- Modelled from the spec: a column tag label of
`data_product_descriptor.py` (§3 TagLabel). -/
structure OpenMetadataTagLabel where
  tagFQN : String
  labelType : String
  source : TagSourceTagLabel
  state : String
deriving DecidableEq, Repr

/-- Modelled from the spec: a column of `data_product_descriptor.py`
(§3 OpenMetadataColumn); `tags` is optional in the descriptor. -/
structure OpenMetadataColumn where
  name : String
  dataType : String
  description : Option String
  tags : Option (List OpenMetadataTagLabel)
deriving DecidableEq, Repr

/-- Modelled from the spec: the data contract of an output port; the column
list is the aliased `schema_` field and is optional. -/
structure DataContract where
  schema_ : Option (List OpenMetadataColumn)
deriving DecidableEq, Repr

/-- Modelled from the spec: an output-port component (§3 Component /
OutputPort), restricted to the fields the embedded source functions read. -/
structure OutputPort where
  id : String
  name : String
  description : String
  kind : String
  platform : Option String
  technology : Option String
  version : String
  outputPortType : String
  dataContract : DataContract
deriving DecidableEq, Repr

/-- Modelled from the spec: a data product (§3 DataProduct), restricted to
the fields the embedded source functions read. -/
structure DataProduct where
  id : String
  name : String
  description : String
  domain : String
  kind : String
  version : String
  environment : String
  components : List OutputPort
deriving DecidableEq, Repr

/-- Modelled from the spec: `DataProduct.get_output_ports` of the missing
`data_product_descriptor.py`.  Per §2/§4.4 the data product's ordered
component collection is processed as output ports in descriptor order. -/
def DataProduct.get_output_ports (dp : DataProduct) : List OutputPort :=
  dp.components

/-! ## Catalog entities returned by the OpenMetadata client -/

/-- A classification tag as returned by the catalog.  In the SDK used by the
source, `Tag.fullyQualifiedName` is a plain optional string, used directly
(no `.root`); Python truthiness on it is string truthiness. -/
structure CatalogTag where
  fullyQualifiedName : Option String
deriving DecidableEq, Repr

/-- An entity reference (`domain`, `glossary` fields of a glossary term)
with an optional `name`. -/
structure EntityRef where
  name : Option String
deriving DecidableEq, Repr

/-- A glossary term as returned by the catalog.  `fullyQualifiedName` is an
optional wrapper object whose payload is `.root`; Python truthiness on the
wrapper is presence (`none`/`some`), not string truthiness.  `glossary.name`
and `name.root` are read unconditionally by the source, so they are plain
strings here. -/
structure GlossaryTerm where
  name : String
  glossary : String
  fullyQualifiedName : Option String
  domain : Option EntityRef
deriving DecidableEq, Repr

/-! ## The abstract OpenMetadata client

The remote catalog client (`metadata.ingestion.ometa.ometa_api.OpenMetadata`)
is external to the repository.  It is modelled as an oracle: each primitive
either returns a value or raises an exception with a message (`Except`
error / the `Option String` fault fields).  Every gateway method below
records the raw client calls it issues, so ordering and abort behaviour are
observable in the trace. -/

/-- The entity types the source passes to the client. -/
inductive EntityKind
  | dataProduct
  | container
  | tag
  | glossaryTerm
deriving DecidableEq, Repr

/-- One raw call against the OpenMetadata client, with the arguments the
source computes for it. -/
inductive ClientCall
  | getTypeByName (name : String)
  | createOrUpdateCustomProperty (propName : String)
  | createOrUpdateStorageService (name serviceType : String)
  | createOrUpdateDomain (domainType name : String)
  | createOrUpdateDataProduct (name displayName description domain : String)
  | createOrUpdateContainer (name displayName dpName service : String)
  | getByName (kind : EntityKind) (name : String)
  | delete (kind : EntityKind) (id : String) (soft recursive : Bool)
  | listAll (kind : EntityKind)
deriving DecidableEq, Repr

/-- The abstract client: responses and injected faults for each primitive.
`createOrUpdate c = some e` means the upsert call `c` raises an exception
whose `str` is `e`; `none` means it succeeds.  `baseUrl` stands for the
result of `urlunparse` over the configured `hostPort` in `get_base_url`. -/
structure OpenMetadataAPI where
  createOrUpdate : ClientCall → Option String
  getByName : EntityKind → String → Except String (Option String)
  deleteResult : EntityKind → String → Option String
  listTags : Except String (List CatalogTag)
  listTerms : Except String (List GlossaryTerm)
  getStringType : Except String (Option String)
  baseUrl : String

/-- `OpenMetadataSettings` (`src/settings/openmetadata_settings.py`), limited
to the fields the embedded functions read, with the source's defaults. -/
structure OpenMetadataSettings where
  default_domain_type : String := "Aggregate"
  default_storage_service_name : String := "generic"
  default_storage_service_type : String := "CustomStorage"
deriving DecidableEq, Repr

/-- The result of one gateway method: the raw client calls it issued, and
either its value or the `OpenMetadataClientServiceError` message it raised. -/
abbrev Res (α : Type) := List ClientCall × Except String α

/-! ## OpenMetadataClientService (the catalog gateway)

Each method mirrors the corresponding method of
`src/services/openmetadata_client_service.py`: it performs its client calls
in source order and, when anything inside its `try` block raises, re-raises
an `OpenMetadataClientServiceError` whose message is the source's f-string
applied to the underlying exception text. -/

/-- The upsert loop inside
`create_or_update_container_custom_attributes`: one
`create_or_update_custom_property` call per property name, aborting on the
first raised exception (the raw exception text is wrapped by the caller). -/
def upsertCustomProps (cl : OpenMetadataAPI) : List String → Res Unit
  | [] => ([], .ok ())
  | n :: rest =>
    match cl.createOrUpdate (.createOrUpdateCustomProperty n) with
    | some e => ([.createOrUpdateCustomProperty n], .error e)
    | none =>
      let r := upsertCustomProps cl rest
      (ClientCall.createOrUpdateCustomProperty n :: r.1, r.2)

/-- `OpenMetadataClientService.create_or_update_container_custom_attributes`:
resolve the catalog's `string` primitive type, then upsert the `kind`,
`platform` and `technology` custom properties on the Container entity type.
A missing string type raises `ValueError` inside the `try` block; every
failure is wrapped in the method's error message. -/
def create_or_update_container_custom_attributes (cl : OpenMetadataAPI) :
    Res Unit :=
  let wrap := fun (e : String) =>
    "Failed to create or update container custom attributes. Details: " ++ e
  match cl.getStringType with
  | .error e => ([.getTypeByName "string"], .error (wrap e))
  | .ok none =>
    ([.getTypeByName "string"],
      .error (wrap
        "Unable to retrieve the string type definition. Please contact the platform team."))
  | .ok (some _) =>
    let r := upsertCustomProps cl ["kind", "platform", "technology"]
    (ClientCall.getTypeByName "string" :: r.1,
      match r.2 with
      | .ok _ => .ok ()
      | .error e => .error (wrap e))

/-- `OpenMetadataClientService.create_or_update_generic_storage_service`:
upsert the configured generic storage service. -/
def create_or_update_generic_storage_service (cl : OpenMetadataAPI)
    (st : OpenMetadataSettings) : Res Unit :=
  let call := ClientCall.createOrUpdateStorageService
    st.default_storage_service_name st.default_storage_service_type
  match cl.createOrUpdate call with
  | none => ([call], .ok ())
  | some e =>
    ([call],
      .error ("Failed to create or update storage service " ++
        st.default_storage_service_name ++ ". Details: " ++ e))

/-- `OpenMetadataClientService.create_or_update_domain`: upsert a domain by
name with the configured domain type. -/
def create_or_update_domain (cl : OpenMetadataAPI)
    (st : OpenMetadataSettings) (name : String) : Res Unit :=
  let call := ClientCall.createOrUpdateDomain st.default_domain_type name
  match cl.createOrUpdate call with
  | none => ([call], .ok ())
  | some e =>
    ([call],
      .error ("Failed to create or update domain " ++ name ++
        ". Details: " ++ e))

/-- `OpenMetadataClientService.create_or_update_dp`: upsert the data product
under its derived name.  Name derivation happens inside the `try` block, so
its `IndexError` is wrapped like any client fault, and no client call is
issued in that case. -/
def create_or_update_dp (cl : OpenMetadataAPI) (dp : DataProduct) :
    Res Unit :=
  match _get_dp_name_from_id dp.id with
  | none =>
    ([], .error ("Failed to create or update DP " ++ dp.id ++
      ". Details: " ++ indexErrorMessage))
  | some nm =>
    let call := ClientCall.createOrUpdateDataProduct nm dp.name dp.description
      dp.domain
    match cl.createOrUpdate call with
    | none => ([call], .ok ())
    | some e =>
      ([call],
        .error ("Failed to create or update DP " ++ dp.id ++
          ". Details: " ++ e))

/-- `OpenMetadataClientService.create_or_update_op`: upsert an output port as
a catalog container, named by the component's derived name, attached to the
parent data product's derived name and the generic storage service. -/
def create_or_update_op (cl : OpenMetadataAPI) (st : OpenMetadataSettings)
    (dp : DataProduct) (op : OutputPort) : Res Unit :=
  match _get_component_name_from_id op.id, _get_dp_name_from_id dp.id with
  | some cn, some dn =>
    let call := ClientCall.createOrUpdateContainer cn op.name dn
      st.default_storage_service_name
    match cl.createOrUpdate call with
    | none => ([call], .ok ())
    | some e =>
      ([call],
        .error ("Failed to create or update Output Port " ++ op.id ++
          ". Details: " ++ e))
  | _, _ =>
    ([], .error ("Failed to create or update Output Port " ++ op.id ++
      ". Details: " ++ indexErrorMessage))

/-- `OpenMetadataClientService.delete_dp`: look the data product up by its
derived name; delete (hard, recursive) only when it exists. -/
def delete_dp (cl : OpenMetadataAPI) (dp : DataProduct) : Res Unit :=
  match _get_dp_name_from_id dp.id with
  | none =>
    ([], .error ("Failed to delete DP " ++ dp.id ++ ". Details: " ++
      indexErrorMessage))
  | some nm =>
    match cl.getByName .dataProduct nm with
    | .error e =>
      ([.getByName .dataProduct nm],
        .error ("Failed to delete DP " ++ dp.id ++ ". Details: " ++ e))
    | .ok none => ([.getByName .dataProduct nm], .ok ())
    | .ok (some eid) =>
      match cl.deleteResult .dataProduct eid with
      | none =>
        ([.getByName .dataProduct nm, .delete .dataProduct eid false true],
          .ok ())
      | some e =>
        ([.getByName .dataProduct nm, .delete .dataProduct eid false true],
          .error ("Failed to delete DP " ++ dp.id ++ ". Details: " ++ e))

/-- `OpenMetadataClientService.delete_op`: look the container up by
storage-service-name + `"."` + derived component name; delete (hard,
recursive) only when it exists. -/
def delete_op (cl : OpenMetadataAPI) (st : OpenMetadataSettings)
    (op : OutputPort) : Res Unit :=
  match _get_component_name_from_id op.id with
  | none =>
    ([], .error ("Failed to delete Output Port " ++ op.id ++ ". Details: " ++
      indexErrorMessage))
  | some cn =>
    let qn := st.default_storage_service_name ++ "." ++ cn
    match cl.getByName .container qn with
    | .error e =>
      ([.getByName .container qn],
        .error ("Failed to delete Output Port " ++ op.id ++ ". Details: " ++
          e))
    | .ok none => ([.getByName .container qn], .ok ())
    | .ok (some eid) =>
      match cl.deleteResult .container eid with
      | none =>
        ([.getByName .container qn, .delete .container eid false true],
          .ok ())
      | some e =>
        ([.getByName .container qn, .delete .container eid false true],
          .error ("Failed to delete Output Port " ++ op.id ++
            ". Details: " ++ e))

/-- `OpenMetadataClientService.get_all_classification_tags`: list every Tag
entity; any client fault is wrapped. -/
def get_all_classification_tags (cl : OpenMetadataAPI) :
    Res (List CatalogTag) :=
  match cl.listTags with
  | .ok ts => ([.listAll .tag], .ok ts)
  | .error e =>
    ([.listAll .tag],
      .error ("Failed to retrieve classification tags. Details: " ++ e))

/-- `OpenMetadataClientService.get_all_glossary_terms`: list every
GlossaryTerm entity; any client fault is wrapped. -/
def get_all_glossary_terms (cl : OpenMetadataAPI) :
    Res (List GlossaryTerm) :=
  match cl.listTerms with
  | .ok ts => ([.listAll .glossaryTerm], .ok ts)
  | .error e =>
    ([.listAll .glossaryTerm],
      .error ("Failed to retrieve glossary terms. Details: " ++ e))

/-- `OpenMetadataClientService.get_base_url`: the scheme-and-host base URL
derived from the client configuration (the `urlparse`/`urlunparse` of the
configured `hostPort` is environment data, carried by the oracle). -/
def get_base_url (cl : OpenMetadataAPI) : String :=
  cl.baseUrl

/-! ## API result models

`src/models/api_models.py` is not present under `src/`; the outcome types
below are modelled from the spec (§3, §6) restricted to what the source
files under `src/` construct. -/

/-- Modelled from the spec: the provisioning status enum (§3: "the design
only ever produces a single terminal COMPLETED value"). -/
inductive Status1
  | COMPLETED
  | FAILED
  | RUNNING
deriving DecidableEq, Repr

/-- The public-info block built by `ProvisionService._get_public_info`,
reduced to its observable data: the data product id and the catalog deep
link built for it. -/
structure Info where
  publicInfo : List (String × String)
  privateInfo : List (String × String)
deriving DecidableEq, Repr

/-- Modelled from the spec: `ProvisioningStatus` (§3). -/
structure ProvisioningStatus where
  status : Status1
  result : String
  info : Option Info := none
deriving DecidableEq, Repr

/-- Modelled from the spec: `SystemErr` (§3). -/
structure SystemErr where
  error : String
deriving DecidableEq, Repr

/-- Modelled from the spec: `ValidationError` (§3). -/
structure ValidationError where
  errors : List String
deriving DecidableEq, Repr

/-! ## urllib.parse.quote -/

/-- The hexadecimal digit characters used by percent-encoding. -/
def hexDigitChar (n : Nat) : Char :=
  (("0123456789ABCDEF".toList)[n % 16]?).getD '0'

/-- UTF-8 encoding of one character as byte values. -/
def utf8Bytes (c : Char) : List Nat :=
  let n := c.toNat
  if n < 0x80 then [n]
  else if n < 0x800 then
    [0xC0 ||| (n >>> 6), 0x80 ||| (n &&& 0x3F)]
  else if n < 0x10000 then
    [0xE0 ||| (n >>> 12), 0x80 ||| ((n >>> 6) &&& 0x3F), 0x80 ||| (n &&& 0x3F)]
  else
    [0xF0 ||| (n >>> 18), 0x80 ||| ((n >>> 12) &&& 0x3F),
      0x80 ||| ((n >>> 6) &&& 0x3F), 0x80 ||| (n &&& 0x3F)]

/-- Characters `urllib.parse.quote` leaves unescaped with its default
`safe='/'`: unreserved characters plus the slash. -/
def isUrlSafeChar (c : Char) : Bool :=
  c.isAlphanum || c = '_' || c = '.' || c = '-' || c = '~' || c = '/'

/-- `urllib.parse.quote(s)`: percent-encode every byte of every unsafe
character. -/
def urlQuote (s : String) : String :=
  String.mk ((s.toList.map (fun c =>
    if isUrlSafeChar c then [c]
    else ((utf8Bytes c).map (fun b =>
      ['%', hexDigitChar (b / 16), hexDigitChar (b % 16)])).flatten)).flatten)

/-! ## ProvisionService -/

/-- `ProvisionService._get_public_info`: one public-info entry per data
product, holding the deep link into the catalog UI.  This branch is only
evaluated after `create_or_update_dp` succeeded, so the derived name exists;
`getD ""` totalises the unreachable missing case. -/
def _get_public_info (cl : OpenMetadataAPI) (dp : DataProduct) :
    List (String × String) :=
  [(dp.id,
    get_base_url cl ++ "dataProduct/" ++
      urlQuote ((_get_dp_name_from_id dp.id).getD ""))]

/-- Sequencing of two gateway calls inside one `try` block: if the first
raises, the second never runs; traces concatenate otherwise. -/
def seqRes (a b : Res Unit) : Res Unit :=
  match a with
  | (tr, .error e) => (tr, .error e)
  | (tr, .ok _) => (tr ++ b.1, b.2)

/-- Sequencing of a list of gateway calls, aborting at the first raised
service error. -/
def runSeq : List (Res Unit) → Res Unit
  | [] => ([], .ok ())
  | r :: rest => seqRes r (runSeq rest)

/-- The per-output-port upsert loop of `ProvisionService.provision`
(`for op in data_product.get_output_ports(): ... create_or_update_op`). -/
def provisionOps (cl : OpenMetadataAPI) (st : OpenMetadataSettings)
    (dp : DataProduct) : List OutputPort → Res Unit
  | [] => ([], .ok ())
  | op :: rest =>
    seqRes (create_or_update_op cl st dp op) (provisionOps cl st dp rest)

/-- `ProvisionService.provision`: ensure the storage service, the container
custom attributes, the domain and the data product, then upsert one output
port per component in descriptor order; on success return
`ProvisioningStatus(COMPLETED)` with the public-info block, and on any
`ServiceError` return `SystemErr` with that error's message. -/
def provision (cl : OpenMetadataAPI) (st : OpenMetadataSettings)
    (dp : DataProduct) :
    List ClientCall × (ProvisioningStatus ⊕ SystemErr) :=
  let r :=
    seqRes (create_or_update_generic_storage_service cl st)
      (seqRes (create_or_update_container_custom_attributes cl)
        (seqRes (create_or_update_domain cl st dp.domain)
          (seqRes (create_or_update_dp cl dp)
            (provisionOps cl st dp dp.get_output_ports))))
  match r with
  | (tr, .ok _) =>
    (tr, .inl
      { status := .COMPLETED, result := "",
        info := some
          { publicInfo := _get_public_info cl dp, privateInfo := [] } })
  | (tr, .error e) => (tr, .inr ⟨e⟩)

/-- The per-output-port delete loop of `ProvisionService.unprovision`. -/
def unprovisionOps (cl : OpenMetadataAPI) (st : OpenMetadataSettings) :
    List OutputPort → Res Unit
  | [] => ([], .ok ())
  | op :: rest => seqRes (delete_op cl st op) (unprovisionOps cl st rest)

/-- `ProvisionService.unprovision`: delete each component's output port in
descriptor order, then delete the data product; `remove_data` is accepted
but gates nothing.  On success return `ProvisioningStatus(COMPLETED)`, on
any `ServiceError` return `SystemErr` with that error's message. -/
def unprovision (cl : OpenMetadataAPI) (st : OpenMetadataSettings)
    (dp : DataProduct) (remove_data : Bool) :
    List ClientCall × (ProvisioningStatus ⊕ SystemErr) :=
  let r := seqRes (unprovisionOps cl st dp.get_output_ports)
    (delete_dp cl dp)
  match r with
  | (tr, .ok _) => (tr, .inl { status := .COMPLETED, result := "" })
  | (tr, .error e) => (tr, .inr ⟨e⟩)

/-! ## ProvisionService.validate -/

/-- The tri-state result of `ProvisionService.validate`
(`None | ValidationError | SystemErr` in the source). -/
inductive ValidateResult
  | ok
  | validationError (errors : List String)
  | systemErr (error : String)
deriving DecidableEq, Repr

/-- The `columns` comprehension of `validate`: every column of every output
port's schema, in order (`op.dataContract.schema_ or []`). -/
def dataProductColumns (dp : DataProduct) : List OpenMetadataColumn :=
  (dp.get_output_ports.map (fun op => op.dataContract.schema_.getD [])).flatten

/-- The `tags` comprehension of `validate`: every tag label of every column
(columns with `tags` `None` or empty contribute nothing). -/
def dataProductTagLabels (dp : DataProduct) : List OpenMetadataTagLabel :=
  ((dataProductColumns dp).map (fun c => c.tags.getD [])).flatten

/-- The `classification_tags` set of `validate` as a deduplicated list of
fully-qualified names (Python set membership is all the source observes). -/
def classification_tags (dp : DataProduct) : List String :=
  (((dataProductTagLabels dp).filter
    (fun t => t.source = TagSourceTagLabel.CLASSIFICATION)).map
      (fun t => t.tagFQN)).dedup

/-- The `glossary_terms` set of `validate` as a deduplicated list. -/
def glossary_terms (dp : DataProduct) : List String :=
  (((dataProductTagLabels dp).filter
    (fun t => t.source = TagSourceTagLabel.GLOSSARY)).map
      (fun t => t.tagFQN)).dedup

/-- The `existing_tags` set of `validate`: fully-qualified names of the
catalog's classification tags; `if t.fullyQualifiedName` is Python string
truthiness, so missing and empty names are excluded. -/
def existing_tags (l : List CatalogTag) : List String :=
  ((l.filterMap (fun t => t.fullyQualifiedName)).filter
    (fun s => s ≠ "")).dedup

/-- The `existing_terms` set of `validate`: `.root` of the glossary terms'
fully-qualified names; `if g.fullyQualifiedName` tests the wrapper object,
which is truthy whenever present. -/
def existing_terms (l : List GlossaryTerm) : List String :=
  (l.filterMap (fun g => g.fullyQualifiedName)).dedup

/-- The `missing_tags` set difference of `validate`. -/
def missing_tags (dp : DataProduct) (l : List CatalogTag) : List String :=
  (classification_tags dp).filter (fun t => t ∉ existing_tags l)

/-- The `missing_terms` set difference of `validate`. -/
def missing_terms (dp : DataProduct) (l : List GlossaryTerm) : List String :=
  (glossary_terms dp).filter (fun t => t ∉ existing_terms l)

/-- The pure tail of `validate` once both catalog reads succeeded: build one
error message per non-empty missing category (classification first), or
return no error. -/
def validateCore (dp : DataProduct) (tagList : List CatalogTag)
    (termList : List GlossaryTerm) : ValidateResult :=
  let mt := missing_tags dp tagList
  let mg := missing_terms dp termList
  if mt ≠ [] ∨ mg ≠ [] then
    .validationError
      ((if mt ≠ [] then
          ["Missing classification tags " ++ pyJoin "," mt ++
            " in OpenMetadata"]
        else []) ++
        (if mg ≠ [] then
          ["Missing glossary terms " ++ pyJoin "," mg ++ " in OpenMetadata"]
        else []))
  else .ok

/-- `ProvisionService.validate`: fetch all classification tags and glossary
terms (each read can raise a wrapped `ServiceError`, which is caught and
mapped to `SystemErr`), then compare against the tag labels referenced by
the descriptor. -/
def validate (cl : OpenMetadataAPI) (dp : DataProduct) : ValidateResult :=
  match (get_all_classification_tags cl).2 with
  | .error e => .systemErr e
  | .ok tagList =>
    match (get_all_glossary_terms cl).2 with
    | .error e => .systemErr e
    | .ok termList => validateCore dp tagList termList

/-! ## Request unpacking (`src/dependencies.py`) -/

/-- Modelled from the spec: the `DescriptorKind` enum of the missing
`api_models.py`.  §4.1 accepts exactly two values (a plain data-product
descriptor and one accompanied by prior results); the protocol also carries
a component-descriptor kind, which is one of the rejected "other" values. -/
inductive DescriptorKind
  | DATAPRODUCT_DESCRIPTOR
  | COMPONENT_DESCRIPTOR
  | DATAPRODUCT_DESCRIPTOR_WITH_RESULTS
deriving DecidableEq, Repr

/-- The text interpolated for a descriptor kind by the f-string of
`unpack_provisioning_request` (the enum member's value). -/
def DescriptorKind.pyStr : DescriptorKind → String
  | .DATAPRODUCT_DESCRIPTOR => "DATAPRODUCT_DESCRIPTOR"
  | .COMPONENT_DESCRIPTOR => "COMPONENT_DESCRIPTOR"
  | .DATAPRODUCT_DESCRIPTOR_WITH_RESULTS =>
    "DATAPRODUCT_DESCRIPTOR_WITH_RESULTS"

/-- Modelled from the spec: `ProvisioningRequest` of the missing
`api_models.py` (§6 inbound envelope). -/
structure ProvisioningRequest where
  descriptorKind : DescriptorKind
  descriptor : String
  removeData : Option Bool := none

/-- The possible outcomes of `yaml.safe_load` +
`parse_yaml_with_model(..., DataProduct)` on a descriptor string. -/
inductive ParseOutcome
  | product (dp : DataProduct)
  | invalid (errors : List String)
  | raised (ex : String)

/-- Modelled from the spec: `yaml.safe_load` and `parse_yaml_with_model`
(`src/utility/parsing_pydantic_models.py` is not under `src/`), as an
abstract parser.  Per §4.1 a schema mismatch is "caught and converted into a
ValidationError" by the parser (outcome `invalid`, returned as a value — the
`isinstance(..., ValidationError)` branches of `src/dependencies.py` rely on
exactly this); `raised` models an exception escaping the parse (e.g. a YAML
syntax error), and `product` a successful parse. -/
structure DescriptorParser where
  parse : String → ParseOutcome

/-- `unpack_provisioning_request` (`src/dependencies.py`): reject a
descriptor kind other than the two accepted values with a `ValidationError`
naming the kind; otherwise parse the descriptor, returning the parsed data
product, the parser's own `ValidationError` unchanged, or — when the parse
raises — a `ValidationError` with the fixed message and the exception
text. -/
def unpack_provisioning_request (P : DescriptorParser)
    (pr : ProvisioningRequest) : DataProduct ⊕ ValidationError :=
  if pr.descriptorKind ≠ .DATAPRODUCT_DESCRIPTOR ∧
      pr.descriptorKind ≠ .DATAPRODUCT_DESCRIPTOR_WITH_RESULTS then
    .inr ⟨["Expecting a DATAPRODUCT_DESCRIPTOR but got a " ++
      pr.descriptorKind.pyStr ++ " instead; please check with the platform team."]⟩
  else
    match P.parse pr.descriptor with
    | .product dp => .inl dp
    | .invalid errs => .inr ⟨errs⟩
    | .raised ex => .inr ⟨["Unable to parse the descriptor.", ex]⟩

/-! ## Glossary lookup service (`src/services/glossary_terms_service.py`) -/

/-- `CustomUrlPickerItem` (`src/models/customurlpicker_models.py`). -/
structure CustomUrlPickerItem where
  id : String
  glossary : String
  name : String
  fqn : String
deriving DecidableEq, Repr

/-- `CustomUrlPickerResourcesRequestBody`
(`src/models/customurlpicker_models.py`): an optional domain filter. -/
structure CustomUrlPickerResourcesRequestBody where
  domain : Option String := none
deriving DecidableEq, Repr

/-- The union returned by `GlossaryTermsService.get_terms`. -/
inductive GetTermsResult
  | items (l : List CustomUrlPickerItem)
  | malformedRequestError (errors : List String)
  | systemError (errors : List String)
deriving DecidableEq, Repr

/-- Python truthiness of an optional string (`None` and `""` are falsy). -/
def optStrTruthy : Option String → Bool
  | none => false
  | some s => s != ""

/-- The free-text filter stage of `get_terms`: when `filter` is truthy, keep
the terms having a fully-qualified name that contains it
(case-insensitively). -/
def textFilteredTerms (filt : Option String) (all_terms : List GlossaryTerm) :
    List GlossaryTerm :=
  if optStrTruthy filt then
    all_terms.filter (fun term =>
      term.fullyQualifiedName.isSome &&
        pyContains (pyLower (term.fullyQualifiedName.getD ""))
          (pyLower (filt.getD "")))
  else all_terms

/-- The per-term condition of the domain filter stage of `get_terms`:
`term.fullyQualifiedName and term.domain and term.domain.name and
domain.lower() in term.domain.name.lower()`. -/
def domainMatch (domain : String) (term : GlossaryTerm) : Bool :=
  term.fullyQualifiedName.isSome &&
    (match term.domain with
     | none => false
     | some dr =>
       match dr.name with
       | none => false
       | some n => (n != "") && pyContains (pyLower n) (pyLower domain))

/-- The domain filter stage of `get_terms`: applied only when a request body
with a truthy domain is supplied. -/
def domainFilteredTerms (rrb : Option CustomUrlPickerResourcesRequestBody)
    (l : List GlossaryTerm) : List GlossaryTerm :=
  match rrb with
  | none => l
  | some body =>
    if optStrTruthy body.domain then
      l.filter (domainMatch (body.domain.getD ""))
    else l

/-- The final item comprehension of `get_terms`: one picker item per
paginated term that has a fully-qualified name. -/
def termToItem (term : GlossaryTerm) : Option CustomUrlPickerItem :=
  match term.fullyQualifiedName with
  | some f =>
    some { id := f, glossary := term.glossary, name := term.name, fqn := f }
  | none => none

/-- The pure body of `get_terms` once the catalog read succeeded: free-text
filter, then domain filter, then the page slice
`[offset*limit, offset*limit+limit)`, then item construction. -/
def getTermsItems (all_terms : List GlossaryTerm)
    (rrb : Option CustomUrlPickerResourcesRequestBody)
    (offset limit : Nat) (filt : Option String) :
    List CustomUrlPickerItem :=
  let filtered_terms := textFilteredTerms filt all_terms
  let filtered_terms_by_domain := domainFilteredTerms rrb filtered_terms
  let paginated_terms :=
    (filtered_terms_by_domain.drop (offset * limit)).take limit
  paginated_terms.filterMap termToItem

/-- `GlossaryTermsService.get_terms`: list all glossary terms (a wrapped
read fault is caught and mapped to the system-error variant), then filter,
paginate and project. -/
def get_terms (cl : OpenMetadataAPI)
    (rrb : Option CustomUrlPickerResourcesRequestBody)
    (offset limit : Nat) (filt : Option String) : GetTermsResult :=
  match (get_all_glossary_terms cl).2 with
  | .error e => .systemError [e]
  | .ok all_terms => .items (getTermsItems all_terms rrb offset limit filt)

/-! ## Machinery and fixtures for the theorems -/

deriving instance DecidableEq for Except

/-- The five gateway steps of `provision`, in the order the source calls
them: storage service, container custom attributes, domain, data product,
then one output-port upsert per component in descriptor order. -/
def provisionSteps (cl : OpenMetadataAPI) (st : OpenMetadataSettings)
    (dp : DataProduct) : List (Res Unit) :=
  [create_or_update_generic_storage_service cl st,
    create_or_update_container_custom_attributes cl,
    create_or_update_domain cl st dp.domain,
    create_or_update_dp cl dp] ++
    dp.get_output_ports.map (create_or_update_op cl st dp)

/-- The sample column of the repository's tests: one classification tag and
one glossary term. -/
def sampleColumn : OpenMetadataColumn :=
  { name := "test_column", dataType := "STRING",
    description := some "Test description",
    tags := some
      [{ tagFQN := "classification.tag1", labelType := "Manual",
         source := .CLASSIFICATION, state := "Confirmed" },
       { tagFQN := "glossary.term1", labelType := "Manual",
         source := .GLOSSARY, state := "Confirmed" }] }

/-- The sample output port of the repository's tests. -/
def sampleOutputPort : OutputPort :=
  { id := "urn:dmb:cmp:healthcare:vaccinations:0:output-port",
    name := "Test Output Port", description := "Test Description",
    kind := "outputport", platform := some "TestPlatform",
    technology := some "TestTech", version := "1.0.0",
    outputPortType := "SQL",
    dataContract := { schema_ := some [sampleColumn] } }

/-- The sample data product of the repository's tests. -/
def sampleDataProduct : DataProduct :=
  { id := "urn:dmb:cmp:healthcare:vaccinations:0", name := "Test DP",
    description := "Test Description", domain := "domain",
    kind := "dataproduct", version := "1.0.0", environment := "dev",
    components := [sampleOutputPort] }

/-- A client on which every primitive succeeds, the catalog contains exactly
the sample tag and term, and every lookup finds nothing. -/
def clHealthy : OpenMetadataAPI :=
  { createOrUpdate := fun _ => none
    getByName := fun _ _ => .ok none
    deleteResult := fun _ _ => none
    listTags := .ok [{ fullyQualifiedName := some "classification.tag1" }]
    listTerms := .ok
      [{ name := "term1", glossary := "glossary1",
         fullyQualifiedName := some "glossary.term1", domain := none }]
    getStringType := .ok (some "string-type-id")
    baseUrl := "http://localhost:8585/" }

/-- A client whose raw GET for the `string` type raises, so the second
provision step (container custom attributes) faults. -/
def clAttrsFault : OpenMetadataAPI :=
  { clHealthy with getStringType := .error "Test error" }

/-- A client whose `list_all_entities(Tag)` raises. -/
def clTagsFault : OpenMetadataAPI :=
  { clHealthy with listTags := .error "Test error" }

/-- A client whose `list_all_entities(GlossaryTerm)` raises. -/
def clTermsFault : OpenMetadataAPI :=
  { clHealthy with listTerms := .error "Test error" }

/-- A parser that always reports the schema-validation failure the
repository's own test `test_invalid_request` expects from
`parse_yaml_with_model` (message starting "Failed to parse the
descriptor"). -/
def schemaFailureParser : DescriptorParser :=
  { parse := fun _ =>
    .invalid ["Failed to parse the descriptor: 1 validation error for DataProduct"] }

/-- A parser whose `yaml.safe_load` raises a syntax error. -/
def raisingParser : DescriptorParser :=
  { parse := fun _ => .raised "while parsing a block mapping: expected <block end>" }

/-- A provisioning request with the accepted plain descriptor kind. -/
def sampleRequest : ProvisioningRequest :=
  { descriptorKind := .DATAPRODUCT_DESCRIPTOR, descriptor := "descriptor: yaml" }

/-- A glossary term lacking a fully-qualified name. -/
def termNoFqn : GlossaryTerm :=
  { name := "broken", glossary := "glossary1", fullyQualifiedName := none,
    domain := none }

/-- The first sample glossary term of the pagination tests. -/
def termOne : GlossaryTerm :=
  { name := "term1", glossary := "glossary1",
    fullyQualifiedName := some "glossary1.term1",
    domain := some { name := some "domain1" } }

/-- The second sample glossary term of the pagination tests. -/
def termTwo : GlossaryTerm :=
  { name := "term2", glossary := "glossary1",
    fullyQualifiedName := some "glossary1.term2",
    domain := some { name := some "domain1" } }

/-- A client whose glossary holds the two sample terms. -/
def clTwoTerms : OpenMetadataAPI :=
  { clHealthy with listTerms := .ok [termOne, termTwo] }

/-- A client whose glossary holds a term without a fully-qualified name
followed by a normal term. -/
def clNoFqnFirst : OpenMetadataAPI :=
  { clHealthy with listTerms := .ok [termNoFqn, termOne] }

/-- A client whose glossary holds only the normal term. -/
def clOneTerm : OpenMetadataAPI :=
  { clHealthy with listTerms := .ok [termOne] }

/-- A client whose catalog holds no classification tags and no glossary
terms. -/
def clEmptyCatalog : OpenMetadataAPI :=
  { clHealthy with listTags := .ok [], listTerms := .ok [] }

theorem dp_name_isSome_iff (id : String) :
    (_get_dp_name_from_id id).isSome ↔ 6 ≤ (pySplit ':' id).length := by
  unfold _get_dp_name_from_id
  constructor
  · intro h
    rcases h5 : (pySplit ':' id)[5]? with _ | c
    · rcases h3 : (pySplit ':' id)[3]? with _ | a <;>
        rcases h4 : (pySplit ':' id)[4]? with _ | b <;>
          simp [h3, h4, h5] at h
    · obtain ⟨hlt, -⟩ := List.getElem?_eq_some_iff.mp h5
      omega
  · intro hlen
    have h3 := List.getElem?_eq_getElem (show 3 < (pySplit ':' id).length by omega)
    have h4 := List.getElem?_eq_getElem (show 4 < (pySplit ':' id).length by omega)
    have h5 := List.getElem?_eq_getElem (show 5 < (pySplit ':' id).length by omega)
    simp [h3, h4, h5]

theorem component_name_isSome_iff (id : String) :
    (_get_component_name_from_id id).isSome ↔ 7 ≤ (pySplit ':' id).length := by
  unfold _get_component_name_from_id
  constructor
  · intro h
    rcases h6 : (pySplit ':' id)[6]? with _ | d
    · rcases h3 : (pySplit ':' id)[3]? with _ | a <;>
        rcases h4 : (pySplit ':' id)[4]? with _ | b <;>
          rcases h5 : (pySplit ':' id)[5]? with _ | c <;>
            simp [h3, h4, h5, h6] at h
    · obtain ⟨hlt, -⟩ := List.getElem?_eq_some_iff.mp h6
      omega
  · intro hlen
    have h3 := List.getElem?_eq_getElem (show 3 < (pySplit ':' id).length by omega)
    have h4 := List.getElem?_eq_getElem (show 4 < (pySplit ':' id).length by omega)
    have h5 := List.getElem?_eq_getElem (show 5 < (pySplit ':' id).length by omega)
    have h6 := List.getElem?_eq_getElem (show 6 < (pySplit ':' id).length by omega)
    simp [h3, h4, h5, h6]

/-- C3 counterexample: the id `"a:b:c:d:e"` has exactly 5 colon-delimited
segments, yet data-product-name derivation faults on it (the source indexes
segments 3, 4 and 5, so 6 segments are required, not 5). -/
theorem five_segment_id_derivation_faults :
    (pySplit ':' "a:b:c:d:e").length = 5 ∧
      _get_dp_name_from_id "a:b:c:d:e" = none := by
  decide

/-- C3 (amended): data-product-name derivation succeeds exactly when the id
has at least 6 colon-delimited segments, and component-name derivation
succeeds exactly when it has at least 7; derivation faults only below those
thresholds. -/
theorem name_derivation_segment_thresholds (id : String) :
    ((_get_dp_name_from_id id).isSome ↔ 6 ≤ (pySplit ':' id).length) ∧
      ((_get_component_name_from_id id).isSome ↔ 7 ≤ (pySplit ':' id).length) :=
  ⟨dp_name_isSome_iff id, component_name_isSome_iff id⟩

/-- Witness for the amended C3 statement at concrete inputs. -/
theorem name_derivation_segment_thresholds_witness :
    (_get_dp_name_from_id "a:b:c:d:e:f").isSome ∧
      ¬(_get_dp_name_from_id "a:b:c:d:e").isSome ∧
      (_get_component_name_from_id "a:b:c:d:e:f:g").isSome := by
  refine ⟨?_, ?_, ?_⟩
  · exact (name_derivation_segment_thresholds "a:b:c:d:e:f").1.mpr (by decide)
  · intro h
    have := (name_derivation_segment_thresholds "a:b:c:d:e").1.mp h
    revert this
    decide
  · exact (name_derivation_segment_thresholds "a:b:c:d:e:f:g").2.mpr (by decide)

/-- C4: for a urn whose colon-delimited segments are
`[urn, dmb, cmp, A, B, C, D]`, the derived data-product name is `A:B:C` and
the derived component name is `A:B:C:D`.  Both derivations are pure
functions of the id, hence deterministic. -/
theorem derived_names_from_seven_segment_urn
    (id A B C D : String)
    (h : pySplit ':' id = ["urn", "dmb", "cmp", A, B, C, D]) :
    _get_dp_name_from_id id = some (A ++ ":" ++ B ++ ":" ++ C) ∧
      _get_component_name_from_id id =
        some (A ++ ":" ++ B ++ ":" ++ C ++ ":" ++ D) := by
  unfold _get_dp_name_from_id _get_component_name_from_id
  rw [h]
  exact ⟨rfl, rfl⟩

/-- Witness for C4 on the documented example urn. -/
theorem derived_names_from_seven_segment_urn_witness :
    _get_dp_name_from_id "urn:dmb:cmp:healthcare:vaccinations:0:snowflake-output-port" =
        some "healthcare:vaccinations:0" ∧
      _get_component_name_from_id
          "urn:dmb:cmp:healthcare:vaccinations:0:snowflake-output-port" =
        some "healthcare:vaccinations:0:snowflake-output-port" := by
  have h := derived_names_from_seven_segment_urn
    "urn:dmb:cmp:healthcare:vaccinations:0:snowflake-output-port"
    "healthcare" "vaccinations" "0" "snowflake-output-port" (by decide)
  exact ⟨h.1.trans (by decide), h.2.trans (by decide)⟩

theorem seqRes_ok (a b : Res Unit) (h : a.2 = Except.ok ()) :
    seqRes a b = (a.1 ++ b.1, b.2) := by
  obtain ⟨tr, r⟩ := a
  cases r with
  | error e => exact absurd h (by simp)
  | ok u => cases u; rfl

theorem seqRes_error (a b : Res Unit) (e : String)
    (h : a.2 = Except.error e) :
    seqRes a b = (a.1, Except.error e) := by
  obtain ⟨tr, r⟩ := a
  cases r with
  | error e2 =>
    obtain rfl : e2 = e := by injection h
    rfl
  | ok u => exact absurd h (by simp)

theorem runSeq_ok (l : List (Res Unit)) (h : ∀ r ∈ l, r.2 = Except.ok ()) :
    runSeq l = ((l.map Prod.fst).flatten, Except.ok ()) := by
  induction l with
  | nil => rfl
  | cons a t ih =>
    rw [runSeq, seqRes_ok a _ (h a (List.mem_cons_self a t)),
      ih (fun r hr => h r (List.mem_cons_of_mem a hr))]
    simp

theorem runSeq_abort (pre : List (Res Unit)) (s : Res Unit)
    (post : List (Res Unit)) (e : String)
    (hpre : ∀ r ∈ pre, r.2 = Except.ok ()) (hs : s.2 = Except.error e) :
    runSeq (pre ++ s :: post) =
      ((pre.map Prod.fst).flatten ++ s.1, Except.error e) := by
  induction pre with
  | nil =>
    rw [List.nil_append, runSeq, seqRes_error s _ e hs]
    simp
  | cons a t ih =>
    rw [List.cons_append, runSeq,
      seqRes_ok a _ (hpre a (List.mem_cons_self a t)),
      ih (fun r hr => hpre r (List.mem_cons_of_mem a hr))]
    simp

theorem provisionOps_eq_runSeq (cl : OpenMetadataAPI)
    (st : OpenMetadataSettings) (dp : DataProduct) (l : List OutputPort) :
    provisionOps cl st dp l =
      runSeq (l.map (create_or_update_op cl st dp)) := by
  induction l with
  | nil => rfl
  | cons op t ih => rw [provisionOps, List.map_cons, runSeq, ih]

theorem provision_eq_runSeq (cl : OpenMetadataAPI)
    (st : OpenMetadataSettings) (dp : DataProduct) :
    provision cl st dp =
      (match runSeq (provisionSteps cl st dp) with
       | (tr, .ok _) =>
         (tr, .inl
           { status := .COMPLETED, result := "",
             info := some
               { publicInfo := _get_public_info cl dp, privateInfo := [] } })
       | (tr, .error e) => (tr, .inr ⟨e⟩)) := by
  unfold provision provisionSteps
  rw [provisionOps_eq_runSeq]
  rfl

/-- C1: `provision` drives the catalog gateway in the fixed order given by
`provisionSteps` — storage service, container custom attributes, domain,
data product, then one output port per component in descriptor order.  When
every step succeeds, the trace is the concatenation of the steps' client
calls in that order and the result is `COMPLETED` with the public-info
block; when a step raises a service fault after an all-successful prefix,
the trace ends with the faulting step's calls — no later step issues any
call and nothing is rolled back — and the result is `SystemErr` carrying
that fault's message. -/
theorem provision_fixed_order_and_abort (cl : OpenMetadataAPI)
    (st : OpenMetadataSettings) (dp : DataProduct) :
    ((∀ r ∈ provisionSteps cl st dp, r.2 = Except.ok ()) →
      provision cl st dp =
        (((provisionSteps cl st dp).map Prod.fst).flatten,
          Sum.inl
            { status := .COMPLETED, result := "",
              info := some
                { publicInfo := _get_public_info cl dp,
                  privateInfo := [] } })) ∧
    (∀ pre s post e, provisionSteps cl st dp = pre ++ s :: post →
      (∀ r ∈ pre, r.2 = Except.ok ()) → s.2 = Except.error e →
      provision cl st dp =
        ((pre.map Prod.fst).flatten ++ s.1, Sum.inr ⟨e⟩)) := by
  constructor
  · intro h
    rw [provision_eq_runSeq, runSeq_ok _ h]
  · intro pre s post e hsplit hpre hs
    rw [provision_eq_runSeq, hsplit, runSeq_abort pre s post e hpre hs]

/-- Witness for C1: with a client whose `string`-type lookup raises
`"Test error"`, the second gateway step faults, so provisioning the sample
data product issues exactly the storage-service upsert and the type lookup
— neither the domain, nor the data product, nor any output port — and
returns `SystemErr` with the wrapped fault message. -/
theorem provision_fixed_order_and_abort_witness :
    provision clAttrsFault {} sampleDataProduct =
      ([ClientCall.createOrUpdateStorageService "generic" "CustomStorage",
        ClientCall.getTypeByName "string"],
       Sum.inr
         ⟨"Failed to create or update container custom attributes. Details: Test error"⟩) := by
  have h := (provision_fixed_order_and_abort clAttrsFault {} sampleDataProduct).2
    [create_or_update_generic_storage_service clAttrsFault {}]
    (create_or_update_container_custom_attributes clAttrsFault)
    ([create_or_update_domain clAttrsFault {} sampleDataProduct.domain,
      create_or_update_dp clAttrsFault sampleDataProduct] ++
      sampleDataProduct.get_output_ports.map
        (create_or_update_op clAttrsFault {} sampleDataProduct))
    "Failed to create or update container custom attributes. Details: Test error"
    rfl (by decide) rfl
  exact h.trans (by decide)

theorem unprovisionOps_eq_runSeq (cl : OpenMetadataAPI)
    (st : OpenMetadataSettings) (l : List OutputPort) :
    unprovisionOps cl st l = runSeq (l.map (delete_op cl st)) := by
  induction l with
  | nil => rfl
  | cons op t ih => rw [unprovisionOps, List.map_cons, runSeq, ih]

/-- C6: when the data product's derived name is absent from the catalog,
`delete_dp` performs only the lookup — no delete call — and succeeds; the
same lookup-before-delete no-op holds for `delete_op` under the qualified
container name storage-service-name + `"."` + derived component name; and
whenever every deletion step succeeds (in particular in those no-op cases),
`unprovision` returns `ProvisioningStatus COMPLETED` with a trace made of
those steps' calls only. -/
theorem delete_absent_is_noop (cl : OpenMetadataAPI)
    (st : OpenMetadataSettings) (dp : DataProduct) :
    (∀ nm, _get_dp_name_from_id dp.id = some nm →
      cl.getByName .dataProduct nm = .ok none →
      delete_dp cl dp = ([ClientCall.getByName .dataProduct nm], .ok ())) ∧
    (∀ (op : OutputPort) (cn : String),
      _get_component_name_from_id op.id = some cn →
      cl.getByName .container
        (st.default_storage_service_name ++ "." ++ cn) = .ok none →
      delete_op cl st op =
        ([ClientCall.getByName .container
          (st.default_storage_service_name ++ "." ++ cn)], .ok ())) ∧
    (∀ remove_data : Bool,
      (∀ op ∈ dp.get_output_ports, (delete_op cl st op).2 = Except.ok ()) →
      (delete_dp cl dp).2 = Except.ok () →
      unprovision cl st dp remove_data =
        ((dp.get_output_ports.map
            (fun op => (delete_op cl st op).1)).flatten ++ (delete_dp cl dp).1,
          Sum.inl { status := .COMPLETED, result := "" })) := by
  refine ⟨?_, ?_, ?_⟩
  · intro nm hnm hget
    unfold delete_dp
    rw [hnm]
    simp [hget]
  · intro op cn hcn hget
    unfold delete_op
    rw [hcn]
    simp [hget]
  · intro remove_data hops hdp
    unfold unprovision
    rw [unprovisionOps_eq_runSeq,
      runSeq_ok _ (by
        intro r hr
        rw [List.mem_map] at hr
        obtain ⟨op, hop, rfl⟩ := hr
        exact hops op hop),
      seqRes_ok _ _ rfl, hdp]
    simp [List.map_map, Function.comp]
    rfl

/-- Witness for C6: against the healthy client (every lookup finds
nothing), deleting the sample data product issues only the lookup, and
unprovisioning the sample data product returns `COMPLETED` with a trace of
two lookups and no delete call. -/
theorem delete_absent_is_noop_witness :
    delete_dp clHealthy sampleDataProduct =
      ([ClientCall.getByName .dataProduct "healthcare:vaccinations:0"],
        .ok ()) ∧
    unprovision clHealthy {} sampleDataProduct true =
      ([ClientCall.getByName .container
          "generic.healthcare:vaccinations:0:output-port",
        ClientCall.getByName .dataProduct "healthcare:vaccinations:0"],
       Sum.inl { status := .COMPLETED, result := "" }) := by
  have h := delete_absent_is_noop clHealthy {} sampleDataProduct
  constructor
  · exact h.1 "healthcare:vaccinations:0" rfl rfl
  · exact (h.2.2 true (by decide) (by decide)).trans (by decide)

/-- C7: if a catalog read performed during `validate` faults, the result is
`SystemErr` carrying the wrapped service-error message — never a
`ValidationError`: a faulting tag listing short-circuits the whole check,
and a faulting glossary listing after a successful tag listing does the
same. -/
theorem validate_read_fault_is_systemerr (cl : OpenMetadataAPI)
    (dp : DataProduct) :
    (∀ e, cl.listTags = .error e →
      validate cl dp =
        .systemErr ("Failed to retrieve classification tags. Details: " ++ e)) ∧
    (∀ e ts, cl.listTags = .ok ts → cl.listTerms = .error e →
      validate cl dp =
        .systemErr ("Failed to retrieve glossary terms. Details: " ++ e)) := by
  constructor
  · intro e he
    unfold validate get_all_classification_tags
    rw [he]
  · intro e ts hts hte
    unfold validate get_all_classification_tags get_all_glossary_terms
    rw [hts, hte]

/-- Witness for C7 at concrete clients: a faulting tag read and a faulting
term read each map to `SystemErr` with the wrapped message. -/
theorem validate_read_fault_is_systemerr_witness :
    validate clTagsFault sampleDataProduct =
      .systemErr "Failed to retrieve classification tags. Details: Test error" ∧
    validate clTermsFault sampleDataProduct =
      .systemErr "Failed to retrieve glossary terms. Details: Test error" := by
  constructor
  · exact ((validate_read_fault_is_systemerr clTagsFault sampleDataProduct).1
      "Test error" rfl).trans (by decide)
  · exact ((validate_read_fault_is_systemerr clTermsFault sampleDataProduct).2
      "Test error" [{ fullyQualifiedName := some "classification.tag1" }]
        rfl rfl).trans (by decide)

theorem missing_tags_eq_nil_iff (dp : DataProduct) (l : List CatalogTag) :
    missing_tags dp l = [] ↔
      ∀ t ∈ classification_tags dp, t ∈ existing_tags l := by
  unfold missing_tags
  rw [List.filter_eq_nil_iff]
  simp

theorem missing_terms_eq_nil_iff (dp : DataProduct) (l : List GlossaryTerm) :
    missing_terms dp l = [] ↔
      ∀ g ∈ glossary_terms dp, g ∈ existing_terms l := by
  unfold missing_terms
  rw [List.filter_eq_nil_iff]
  simp

theorem validateCore_eq_ok_iff (dp : DataProduct) (tl : List CatalogTag)
    (gl : List GlossaryTerm) :
    validateCore dp tl gl = .ok ↔
      (missing_tags dp tl = [] ∧ missing_terms dp gl = []) := by
  unfold validateCore
  by_cases hmt : missing_tags dp tl = [] <;>
    by_cases hmg : missing_terms dp gl = [] <;>
      simp [hmt, hmg]

/-- C2: once both catalog reads succeed, `validate` returns no error exactly
when every referenced classification tag and glossary term (collected and
deduplicated across all components' column schemas, partitioned by tag
source) exists in the catalog; otherwise it returns a `ValidationError`
with one message per non-empty missing category — classification first —
each comma-joining the missing identifiers; and when every component's
schema is empty there is nothing to check, so no error is returned. -/
theorem validate_characterisation (cl : OpenMetadataAPI) (dp : DataProduct)
    (tagList : List CatalogTag) (termList : List GlossaryTerm)
    (htags : cl.listTags = .ok tagList)
    (hterms : cl.listTerms = .ok termList) :
    (validate cl dp = .ok ↔
      ((∀ t ∈ classification_tags dp, t ∈ existing_tags tagList) ∧
        (∀ g ∈ glossary_terms dp, g ∈ existing_terms termList))) ∧
    (missing_tags dp tagList ≠ [] ∨ missing_terms dp termList ≠ [] →
      validate cl dp = .validationError
        ((if missing_tags dp tagList ≠ [] then
            ["Missing classification tags " ++
              pyJoin "," (missing_tags dp tagList) ++ " in OpenMetadata"]
          else []) ++
          (if missing_terms dp termList ≠ [] then
            ["Missing glossary terms " ++
              pyJoin "," (missing_terms dp termList) ++ " in OpenMetadata"]
          else []))) ∧
    ((∀ op ∈ dp.get_output_ports, op.dataContract.schema_.getD [] = []) →
      validate cl dp = .ok) := by
  have hv : validate cl dp = validateCore dp tagList termList := by
    unfold validate get_all_classification_tags get_all_glossary_terms
    rw [htags, hterms]
  refine ⟨?_, ?_, ?_⟩
  · rw [hv, validateCore_eq_ok_iff]
    exact and_congr (missing_tags_eq_nil_iff dp tagList)
      (missing_terms_eq_nil_iff dp termList)
  · intro hne
    rw [hv]
    unfold validateCore
    rw [if_pos hne]
  · intro hempty
    have hcols : dataProductColumns dp = [] := by
      unfold dataProductColumns
      rw [List.flatten_eq_nil_iff]
      intro x hx
      rw [List.mem_map] at hx
      obtain ⟨op, hop, rfl⟩ := hx
      exact hempty op hop
    have htl : dataProductTagLabels dp = [] := by
      unfold dataProductTagLabels
      rw [hcols]
      rfl
    have hct : classification_tags dp = [] := by
      unfold classification_tags
      rw [htl]
      rfl
    have hgt : glossary_terms dp = [] := by
      unfold glossary_terms
      rw [htl]
      rfl
    rw [hv]
    unfold validateCore
    simp [missing_tags, missing_terms, hct, hgt]

/-- Witness for C2: the sample data product references exactly the tag and
term held by the healthy client's catalog, so `validate` returns no error;
against an empty catalog it returns the two missing-category messages,
classification first. -/
theorem validate_characterisation_witness :
    validate clHealthy sampleDataProduct = .ok ∧
    validate clEmptyCatalog sampleDataProduct =
      .validationError
        ["Missing classification tags classification.tag1 in OpenMetadata",
         "Missing glossary terms glossary.term1 in OpenMetadata"] := by
  constructor
  · exact (validate_characterisation clHealthy sampleDataProduct
      [{ fullyQualifiedName := some "classification.tag1" }]
      [{ name := "term1", glossary := "glossary1",
         fullyQualifiedName := some "glossary.term1", domain := none }]
      rfl rfl).1.mpr ⟨by decide, by decide⟩
  · exact ((validate_characterisation clEmptyCatalog sampleDataProduct [] []
      rfl rfl).2.1 (by decide)).trans (by decide)

/-- C5 counterexample: a schema-validation failure is converted by
`parse_yaml_with_model` into its own `ValidationError` (message starting
"Failed to parse the descriptor", as the repository's test
`test_invalid_request` asserts), which `unpack_provisioning_request`
returns unchanged — its errors list does not contain the fixed message
"Unable to parse the descriptor.". -/
theorem unpack_schema_failure_keeps_parser_error :
    unpack_provisioning_request schemaFailureParser sampleRequest =
      .inr ⟨["Failed to parse the descriptor: 1 validation error for DataProduct"]⟩ ∧
    "Unable to parse the descriptor." ∉
      (["Failed to parse the descriptor: 1 validation error for DataProduct"] :
        List String) := by
  decide

/-- C5 (amended): a descriptor kind other than the two accepted values
yields a `ValidationError` naming the unexpected kind; for an accepted
kind, an exception raised during deserialization yields a
`ValidationError` of the fixed message "Unable to parse the descriptor."
followed by the exception text, while a schema-validation failure already
converted by the parser is returned as that parser `ValidationError`
unchanged; a successful parse yields the data product — never an unhandled
fault. -/
theorem unpack_provisioning_request_cases (P : DescriptorParser)
    (pr : ProvisioningRequest) :
    (pr.descriptorKind ≠ .DATAPRODUCT_DESCRIPTOR →
      pr.descriptorKind ≠ .DATAPRODUCT_DESCRIPTOR_WITH_RESULTS →
      unpack_provisioning_request P pr =
        .inr ⟨["Expecting a DATAPRODUCT_DESCRIPTOR but got a " ++
          pr.descriptorKind.pyStr ++
          " instead; please check with the platform team."]⟩) ∧
    (pr.descriptorKind = .DATAPRODUCT_DESCRIPTOR ∨
      pr.descriptorKind = .DATAPRODUCT_DESCRIPTOR_WITH_RESULTS →
      ((∀ ex, P.parse pr.descriptor = .raised ex →
        unpack_provisioning_request P pr =
          .inr ⟨["Unable to parse the descriptor.", ex]⟩) ∧
      (∀ errs, P.parse pr.descriptor = .invalid errs →
        unpack_provisioning_request P pr = .inr ⟨errs⟩) ∧
      (∀ dp, P.parse pr.descriptor = .product dp →
        unpack_provisioning_request P pr = .inl dp))) := by
  constructor
  · intro h1 h2
    unfold unpack_provisioning_request
    rw [if_pos ⟨h1, h2⟩]
  · intro hacc
    have hcond : ¬(pr.descriptorKind ≠ .DATAPRODUCT_DESCRIPTOR ∧
        pr.descriptorKind ≠ .DATAPRODUCT_DESCRIPTOR_WITH_RESULTS) := by
      rcases hacc with h | h <;> simp [h]
    refine ⟨?_, ?_, ?_⟩
    · intro ex hex
      unfold unpack_provisioning_request
      rw [if_neg hcond, hex]
    · intro errs herrs
      unfold unpack_provisioning_request
      rw [if_neg hcond, herrs]
    · intro dp hdp
      unfold unpack_provisioning_request
      rw [if_neg hcond, hdp]

/-- Witness for the amended C5 at concrete inputs: a component-descriptor
kind is rejected by name, and a parse that raises produces the fixed
message plus the exception text. -/
theorem unpack_provisioning_request_cases_witness :
    unpack_provisioning_request raisingParser
        { sampleRequest with descriptorKind := .COMPONENT_DESCRIPTOR } =
      .inr ⟨["Expecting a DATAPRODUCT_DESCRIPTOR but got a COMPONENT_DESCRIPTOR instead; please check with the platform team."]⟩ ∧
    unpack_provisioning_request raisingParser sampleRequest =
      .inr ⟨["Unable to parse the descriptor.",
        "while parsing a block mapping: expected <block end>"]⟩ := by
  constructor
  · exact ((unpack_provisioning_request_cases raisingParser
      { sampleRequest with descriptorKind := .COMPONENT_DESCRIPTOR }).1
        (by decide) (by decide)).trans (by decide)
  · exact ((unpack_provisioning_request_cases raisingParser sampleRequest).2
      (Or.inl rfl)).1 "while parsing a block mapping: expected <block end>" rfl

theorem textFilteredTerms_subset (filt : Option String)
    (l : List GlossaryTerm) :
    ∀ t ∈ textFilteredTerms filt l, t ∈ l := by
  intro t ht
  unfold textFilteredTerms at ht
  split at ht
  · exact List.mem_of_mem_filter ht
  · exact ht

theorem domainFilteredTerms_subset
    (rrb : Option CustomUrlPickerResourcesRequestBody)
    (l : List GlossaryTerm) :
    ∀ t ∈ domainFilteredTerms rrb l, t ∈ l := by
  intro t ht
  unfold domainFilteredTerms at ht
  rcases rrb with _ | body
  · exact ht
  · simp only at ht
    split at ht
    · exact List.mem_of_mem_filter ht
    · exact ht

theorem filterMap_termToItem_eq_map (l : List GlossaryTerm)
    (h : ∀ t ∈ l, t.fullyQualifiedName.isSome) :
    l.filterMap termToItem =
      l.map (fun t =>
        { id := t.fullyQualifiedName.getD "",
          glossary := t.glossary, name := t.name,
          fqn := t.fullyQualifiedName.getD "" }) := by
  induction l with
  | nil => rfl
  | cons t rest ih =>
    rcases hf : t.fullyQualifiedName with _ | f
    · have := h t (List.mem_cons_self t rest)
      rw [hf] at this
      exact absurd this (by simp)
    · rw [List.filterMap_cons, List.map_cons,
        ih (fun x hx => h x (List.mem_cons_of_mem t hx))]
      simp [termToItem, hf]

/-- C8: once the catalog read succeeds and every term carries a
fully-qualified name, `get_terms` returns exactly the page
`[offset*limit, offset*limit+limit)` of the filtered list, order preserved,
projected to picker items — offset is a page number multiplied by the
limit, not a row offset. -/
theorem get_terms_page_slice (cl : OpenMetadataAPI)
    (rrb : Option CustomUrlPickerResourcesRequestBody)
    (offset limit : Nat) (filt : Option String)
    (all_terms : List GlossaryTerm)
    (h : cl.listTerms = .ok all_terms)
    (hfqn : ∀ t ∈ all_terms, t.fullyQualifiedName.isSome) :
    get_terms cl rrb offset limit filt =
      .items ((((domainFilteredTerms rrb
          (textFilteredTerms filt all_terms)).drop (offset * limit)).take
            limit).map (fun t =>
        { id := t.fullyQualifiedName.getD "",
          glossary := t.glossary, name := t.name,
          fqn := t.fullyQualifiedName.getD "" })) := by
  have hterms : get_terms cl rrb offset limit filt =
      .items (getTermsItems all_terms rrb offset limit filt) := by
    unfold get_terms get_all_glossary_terms
    rw [h]
  rw [hterms]
  unfold getTermsItems
  rw [filterMap_termToItem_eq_map]
  intro t ht
  have h1 := List.mem_of_mem_take ht
  have h2 := List.mem_of_mem_drop h1
  exact hfqn t (textFilteredTerms_subset filt all_terms t
    (domainFilteredTerms_subset rrb _ t h2))

/-- Witness for C8: with two catalog terms, page 0 of size 1 is exactly the
first term and page 1 of size 1 exactly the second. -/
theorem get_terms_page_slice_witness :
    get_terms clTwoTerms none 0 1 none =
      .items [{ id := "glossary1.term1", glossary := "glossary1",
                name := "term1", fqn := "glossary1.term1" }] ∧
    get_terms clTwoTerms none 1 1 none =
      .items [{ id := "glossary1.term2", glossary := "glossary1",
                name := "term2", fqn := "glossary1.term2" }] := by
  constructor
  · exact (get_terms_page_slice clTwoTerms none 0 1 none [termOne, termTwo]
      rfl (by decide)).trans (by decide)
  · exact (get_terms_page_slice clTwoTerms none 1 1 none [termOne, termTwo]
      rfl (by decide)).trans (by decide)

/-- C9 counterexample: with no filters, a term lacking a fully-qualified
name still occupies its pagination slot — it is dropped only after the page
slice.  With the catalog `[termNoFqn, termOne]`, page 0 of size 1 is empty,
while removing the fqn-less term makes the same page return `termOne`: the
fqn-less term affected which other terms were returned, so such terms are
not "excluded from results entirely". -/
theorem no_fqn_term_occupies_page_slot :
    get_terms clNoFqnFirst none 0 1 none = .items [] ∧
    get_terms clOneTerm none 0 1 none =
      .items [{ id := "glossary1.term1", glossary := "glossary1",
                name := "term1", fqn := "glossary1.term1" }] ∧
    GetTermsResult.items [] ≠
      .items [{ id := "glossary1.term1", glossary := "glossary1",
                name := "term1", fqn := "glossary1.term1" }] := by
  decide

/-- C9 (amended): no glossary term lacking a fully-qualified name ever
appears in the returned items — every returned item's fqn is the
fully-qualified name of some catalog term that has one — and when a truthy
free-text filter is supplied such terms are excluded before pagination, so
they do not affect which other terms are returned; but with no truthy
free-text filter they still occupy pagination slots and can displace other
terms from the returned page. -/
theorem no_fqn_terms_never_returned (cl : OpenMetadataAPI)
    (rrb : Option CustomUrlPickerResourcesRequestBody)
    (offset limit : Nat) (filt : Option String)
    (all_terms : List GlossaryTerm)
    (h : cl.listTerms = .ok all_terms) :
    (get_terms cl rrb offset limit filt =
      .items (getTermsItems all_terms rrb offset limit filt)) ∧
    (∀ item ∈ getTermsItems all_terms rrb offset limit filt,
      ∃ t ∈ all_terms, t.fullyQualifiedName = some item.fqn) ∧
    (optStrTruthy filt = true →
      getTermsItems all_terms rrb offset limit filt =
        getTermsItems (all_terms.filter
          (fun t => t.fullyQualifiedName.isSome)) rrb offset limit filt) := by
  refine ⟨?_, ?_, ?_⟩
  · unfold get_terms get_all_glossary_terms
    rw [h]
  · intro item hitem
    unfold getTermsItems at hitem
    rw [List.mem_filterMap] at hitem
    obtain ⟨t, ht, htoi⟩ := hitem
    have h1 := List.mem_of_mem_take ht
    have h2 := List.mem_of_mem_drop h1
    have h3 := textFilteredTerms_subset filt all_terms t
      (domainFilteredTerms_subset rrb _ t h2)
    refine ⟨t, h3, ?_⟩
    unfold termToItem at htoi
    rcases hf : t.fullyQualifiedName with _ | f <;> rw [hf] at htoi
    · exact absurd htoi (by simp)
    · injection htoi with hitem2
      rw [← hitem2]
  · intro htruthy
    unfold getTermsItems
    have : textFilteredTerms filt all_terms =
        textFilteredTerms filt (all_terms.filter
          (fun t => t.fullyQualifiedName.isSome)) := by
      unfold textFilteredTerms
      rw [if_pos htruthy, if_pos htruthy, List.filter_filter]
      congr 1
      funext t
      rcases t.fullyQualifiedName with _ | f <;> simp
    rw [this]

/-- Witness for the amended C9: against the catalog `[termNoFqn, termOne]`
with the free-text filter `"term"`, the fqn-less term is excluded before
pagination and page 0 of size 1 is exactly `termOne`. -/
theorem no_fqn_terms_never_returned_witness :
    get_terms clNoFqnFirst none 0 1 (some "term") =
      .items [{ id := "glossary1.term1", glossary := "glossary1",
                name := "term1", fqn := "glossary1.term1" }] := by
  have h := no_fqn_terms_never_returned clNoFqnFirst none 0 1 (some "term")
    [termNoFqn, termOne] rfl
  rw [h.1, h.2.2 (by decide)]
  decide

/-- C10: when a request body with a non-empty domain filter is supplied,
every returned item stems from a term that has a fully-qualified name and a
domain reference with a non-empty name — terms lacking a domain, or whose
domain has no name, are excluded; and when no truthy domain filter is
supplied the domain stage filters nothing, so such terms are not excluded
on that account. -/
theorem domain_filter_exclusion (all_terms : List GlossaryTerm)
    (offset limit : Nat) (filt : Option String) (d : String)
    (rrb : Option CustomUrlPickerResourcesRequestBody)
    (l : List GlossaryTerm) :
    (d ≠ "" →
      ∀ item ∈ getTermsItems all_terms (some { domain := some d })
          offset limit filt,
        ∃ t ∈ all_terms, t.fullyQualifiedName = some item.fqn ∧
          ∃ dr, t.domain = some dr ∧ ∃ n, dr.name = some n ∧ n ≠ "") ∧
    ((∀ body, rrb = some body → optStrTruthy body.domain = false) →
      domainFilteredTerms rrb l = l) := by
  constructor
  · intro hd item hitem
    have htr : optStrTruthy (some d) = true := by
      simp [optStrTruthy]
      exact hd
    unfold getTermsItems at hitem
    rw [List.mem_filterMap] at hitem
    obtain ⟨t, ht, htoi⟩ := hitem
    have h1 := List.mem_of_mem_take ht
    have h2 := List.mem_of_mem_drop h1
    have hdf : domainFilteredTerms (some { domain := some d })
        (textFilteredTerms filt all_terms) =
        (textFilteredTerms filt all_terms).filter (domainMatch d) := by
      simp [domainFilteredTerms, htr]
    rw [hdf] at h2
    have hmatch : domainMatch d t = true := List.of_mem_filter h2
    have hall := textFilteredTerms_subset filt all_terms t
      (List.mem_of_mem_filter h2)
    refine ⟨t, hall, ?_, ?_⟩
    · unfold termToItem at htoi
      rcases hf : t.fullyQualifiedName with _ | f <;> rw [hf] at htoi
      · exact absurd htoi (by simp)
      · injection htoi with hitem2
        rw [← hitem2]
    · unfold domainMatch at hmatch
      rw [Bool.and_eq_true] at hmatch
      obtain ⟨-, hdom⟩ := hmatch
      rcases hD : t.domain with _ | dr
      · rw [hD] at hdom
        cases hdom
      · rw [hD] at hdom
        simp only [] at hdom
        rcases hN : dr.name with _ | n
        · rw [hN] at hdom
          cases hdom
        · rw [hN] at hdom
          simp only [] at hdom
          rw [Bool.and_eq_true] at hdom
          exact ⟨dr, rfl, n, hN, by simpa using hdom.1⟩
  · intro hforall
    rcases rrb with _ | body
    · rfl
    · have hfalse := hforall body rfl
      unfold domainFilteredTerms
      simp [hfalse]

/-- Witness for C10: with no request body the domain stage filters nothing
(the fqn-less, domain-less term is retained at that stage), and with the
domain filter `"domain1"` every item returned over the catalog
`[termNoFqn, termOne]` stems from a term with a named domain. -/
theorem domain_filter_exclusion_witness :
    domainFilteredTerms none [termNoFqn] = [termNoFqn] ∧
    (∀ item ∈ getTermsItems [termNoFqn, termOne]
        (some { domain := some "domain1" }) 0 10 none,
      ∃ t ∈ [termNoFqn, termOne], t.fullyQualifiedName = some item.fqn ∧
        ∃ dr, t.domain = some dr ∧ ∃ n, dr.name = some n ∧ n ≠ "") := by
  have h := domain_filter_exclusion [termNoFqn, termOne] 0 10 none "domain1"
    none [termNoFqn]
  exact ⟨h.2 (fun body hb => by cases hb), h.1 (by decide)⟩

end Witboost
